import Mathlib

/-!
Verification of the natural-language query gateway over a Kubernetes cluster
(single-file FastAPI application, `main.py`).

The embedding models:
* the query classifier (substring check for "log" on the lowercased query);
* the pod-name extraction regex
  `log\s+(?:for\s+)?(?:the\s+pod\s+)?([a-zA-Z0-9-]+)` with `re.IGNORECASE`,
  including Python's leftmost-match scan and greedy backtracking over the two
  optional groups;
* the three snapshot collectors (`get_pods_info`, `get_deployments_info`,
  `get_nodes_info`) and the single-pod log fetch (`get_pod_logs`), each
  swallowing collaborator exceptions as in the source;
* `json.dumps(context, indent=2)` on the Python dict the handler builds;
* the request handler `query_kubernetes`, instrumented with an explicit trace
  of collaborator invocations (cluster API calls and completion-provider
  calls).

External collaborators (the cluster API client and the chat-completion
provider) are inputs of the handler: each is a function returning either a
normal result or an exception, mirroring how the source consumes them.
-/

/-! ### Character utilities -/

/-- ASCII whitespace, as matched by the Python regex class `\s` and stripped
by `str.strip()` (space, tab, newline, carriage return, vertical tab,
form feed). -/
def isPySpace (c : Char) : Bool :=
  decide (c.toNat = 32 ∨ c.toNat = 9 ∨ c.toNat = 10 ∨ c.toNat = 13 ∨
          c.toNat = 11 ∨ c.toNat = 12)

/-- Characters of the capture class `[a-zA-Z0-9-]`. -/
def isTokChar (c : Char) : Bool :=
  decide ((97 ≤ c.toNat ∧ c.toNat ≤ 122) ∨ (65 ≤ c.toNat ∧ c.toNat ≤ 90) ∨
          (48 ≤ c.toNat ∧ c.toNat ≤ 57) ∨ c.toNat = 45)

/-- ASCII lowering, as `str.lower()` acts on ASCII text. -/
def lowerList (l : List Char) : List Char :=
  l.map Char.toLower

/-- Substring test on character lists, modelling Python's `in` on `str`. -/
def containsSub (pat : List Char) : List Char → Bool
  | [] => pat.isEmpty
  | c :: cs => pat.isPrefixOf (c :: cs) || containsSub pat cs

/-- The classifier of `query_kubernetes`: `"log" in request.query.lower()`. -/
def containsLog (q : String) : Bool :=
  containsSub (("log").data) (lowerList q.data)

/-! ### The pod-name extraction regex

`re.search(r"log\s+(?:for\s+)?(?:the\s+pod\s+)?([a-zA-Z0-9-]+)", query,
re.IGNORECASE)`.

Since no continuation of any `\s+` in the pattern can start with a whitespace
character, the greedy `\s+` is equivalent to maximal munch; the only genuine
backtracking choice points are the two optional non-capturing groups, tried
greedily (match first, then skip). -/

/-- Match `\s+`: requires at least one whitespace character, consumes the
maximal run. -/
def munchSpaces1 : List Char → Option (List Char)
  | [] => none
  | c :: cs => if isPySpace c then some (cs.dropWhile isPySpace) else none

/-- Consume a literal word case-insensitively (the pattern is given in
lowercase). -/
def eatCI : List Char → List Char → Option (List Char)
  | [], rest => some rest
  | _ :: _, [] => none
  | p :: ps, c :: cs => if Char.toLower c = p then eatCI ps cs else none

/-- Consume `for\s+`. -/
def eatForSpaces (l : List Char) : Option (List Char) :=
  match eatCI [ 'f', 'o', 'r'] l with
  | some rest => munchSpaces1 rest
  | none => none

/-- Consume `the\s+pod\s+`. -/
def eatThePodSpaces (l : List Char) : Option (List Char) :=
  match eatCI [ 't', 'h', 'e'] l with
  | some r1 =>
    match munchSpaces1 r1 with
    | some r2 =>
      match eatCI [ 'p', 'o', 'd'] r2 with
      | some r3 => munchSpaces1 r3
      | none => none
    | none => none
  | none => none

/-- Maximal run of `[a-zA-Z0-9-]` characters, with the remainder. -/
def takeTok : List Char → List Char × List Char
  | [] => ([], [])
  | c :: cs =>
    if isTokChar c then (c :: (takeTok cs).1, (takeTok cs).2)
    else ([], c :: cs)

/-- The capture group `([a-zA-Z0-9-]+)`: at least one token character. -/
def tokenOf (l : List Char) : Option (List Char) :=
  match takeTok l with
  | ([], _) => none
  | (c :: t, _) => some (c :: t)

/-- Continuation after the optional `for\s+` group: try `the\s+pod\s+`
greedily, then the capture; on failure fall back to skipping the group. -/
def afterThe (l : List Char) : Option (List Char) :=
  match eatThePodSpaces l with
  | some u =>
    match tokenOf u with
    | some t => some t
    | none => tokenOf l
  | none => tokenOf l

/-- Match the pattern tail after the literal `log`: `\s+` then the two
optional groups (greedy) then the capture group. Returns the captured
token. -/
def matchTail (l : List Char) : Option (List Char) :=
  match munchSpaces1 l with
  | none => none
  | some s1 =>
    match eatForSpaces s1 with
    | some t =>
      match afterThe t with
      | some tok => some tok
      | none => afterThe s1
    | none => afterThe s1

/-- Does the input start with the literal `log`, case-insensitively? Returns
the rest on success. -/
def startsWithLogCI : List Char → Option (List Char)
  | a :: b :: c :: rest =>
    if Char.toLower a = 'l' ∧ Char.toLower b = 'o' ∧ Char.toLower c = 'g'
    then some rest else none
  | _ => none

/-- `re.search`: scan start positions left to right; at each, try to match
the whole pattern; return the first successful capture. -/
def searchLog : List Char → Option (List Char)
  | [] => none
  | c :: cs =>
    match startsWithLogCI (c :: cs) with
    | some rest =>
      match matchTail rest with
      | some tok => some tok
      | none => searchLog cs
    | none => searchLog cs

/-- Python `str.strip()` (ASCII whitespace), applied to the captured group
in the source (`match.group(1).strip()`). -/
def pyStrip (l : List Char) : List Char :=
  ((l.dropWhile isPySpace).reverse.dropWhile isPySpace).reverse

/-! ### JSON values and `json.dumps(context, indent=2)`

The handler builds a Python dict of lists of dicts, strings, ints, bools and
None, and serializes it with `json.dumps(context, indent=2)` (default
separators for indented output: items end with a comma, keys are followed by
a colon and a space; `ensure_ascii=True`). Arrays and objects are modelled
with their own list-like inductives so that all recursion is structural. -/

mutual
inductive JVal where
  | jnull : JVal
  | jbool : Bool → JVal
  | jint : Int → JVal
  | jstr : String → JVal
  | jarr : JItems → JVal
  | jobj : JFields → JVal

inductive JItems where
  | nil : JItems
  | cons : JVal → JItems → JItems

inductive JFields where
  | nil : JFields
  | cons : String → JVal → JFields → JFields
end

/-- Lowercase hex digit, as Python's `\uXXXX` escapes use. -/
def hexDigit (n : Nat) : Char :=
  if n < 10 then Char.ofNat (48 + n) else Char.ofNat (87 + n)

/-- A `\uXXXX` escape for a 16-bit value. -/
def uEscape (n : Nat) : List Char :=
  [ '\\', 'u', hexDigit (n / 4096 % 16), hexDigit (n / 256 % 16),
    hexDigit (n / 16 % 16), hexDigit (n % 16)]

/-- Escape one character as Python's `json.dumps` does with
`ensure_ascii=True`. -/
def quoteChar (c : Char) : List Char :=
  if c.toNat = 34 then [ '\\', '"']
  else if c.toNat = 92 then [ '\\', '\\']
  else if c.toNat = 10 then [ '\\', 'n']
  else if c.toNat = 13 then [ '\\', 'r']
  else if c.toNat = 9 then [ '\\', 't']
  else if c.toNat = 8 then [ '\\', 'b']
  else if c.toNat = 12 then [ '\\', 'f']
  else if c.toNat < 32 then uEscape c.toNat
  else if c.toNat < 127 then [c]
  else if c.toNat < 65536 then uEscape c.toNat
  else uEscape (55296 + (c.toNat - 65536) / 1024) ++
       uEscape (56320 + (c.toNat - 65536) % 1024)

/-- JSON string literal (quotes included). -/
def jsonQuote (s : String) : String :=
  String.mk ( '"' :: s.data.foldr (fun c acc => quoteChar c ++ acc) [ '"'])

/-- Decimal representation of a Python int. -/
def intRepr (n : Int) : String :=
  if n < 0 then ("-") ++ Nat.repr (-n).toNat else Nat.repr n.toNat

/-- Indentation produced by `indent=2` at nesting level `lvl`. -/
def jIndent (lvl : Nat) : String :=
  String.mk (List.replicate (2 * lvl) ' ')

mutual
/-- Serialize one JSON value at nesting level `lvl` (the level fixes the
indentation of nested containers, as `indent=2` does). -/
def dumpVal (lvl : Nat) : JVal → String
  | JVal.jnull => "null"
  | JVal.jbool b => if b then ("true") else ("false")
  | JVal.jint n => intRepr n
  | JVal.jstr s => jsonQuote s
  | JVal.jarr JItems.nil => "[]"
  | JVal.jarr (JItems.cons v rest) =>
      ("[\n") ++ jIndent (lvl + 1) ++ dumpVal (lvl + 1) v ++
      dumpItemsRest (lvl + 1) rest ++ ("\n") ++ jIndent lvl ++ ("]")
  | JVal.jobj JFields.nil => "\x7b\x7d"
  | JVal.jobj (JFields.cons k v rest) =>
      ("\x7b\n") ++ jIndent (lvl + 1) ++ jsonQuote k ++ (": ") ++ dumpVal (lvl + 1) v ++
      dumpFieldsRest (lvl + 1) rest ++ ("\n") ++ jIndent lvl ++ ("\x7d")

/-- The remaining array items, each preceded by the item separator. -/
def dumpItemsRest (lvl : Nat) : JItems → String
  | JItems.nil => ""
  | JItems.cons v rest =>
      (",\n") ++ jIndent lvl ++ dumpVal lvl v ++ dumpItemsRest lvl rest

/-- The remaining object entries, each preceded by the item separator. -/
def dumpFieldsRest (lvl : Nat) : JFields → String
  | JFields.nil => ""
  | JFields.cons k v rest =>
      (",\n") ++ jIndent lvl ++ jsonQuote k ++ (": ") ++ dumpVal lvl v ++
      dumpFieldsRest lvl rest
end

/-- `json.dumps(v, indent=2)`. -/
def json_dumps (v : JVal) : String :=
  dumpVal 0 v

/-- Lookup of a key in a JSON object (Python dict access on the records the
collectors build). -/
def jfieldsGet (k : String) : JFields → Option JVal
  | JFields.nil => none
  | JFields.cons k2 v rest => if k2 = k then some v else jfieldsGet k rest

/-- Lookup of a key in a JSON value that is an object. -/
def jobjGet (k : String) : JVal → Option JVal
  | JVal.jobj fs => jfieldsGet k fs
  | _ => none

/-- Package a Lean list of JSON values as a JSON array body. -/
def jitemsOf : List JVal → JItems
  | [] => JItems.nil
  | v :: rest => JItems.cons v (jitemsOf rest)

/-! ### Cluster API item shapes

The fields of the upstream API objects that the collectors read. Optional
fields model attributes the Python client reports as `None`. -/

/-- A status condition of a deployment or node (`.type` is read by the
collectors). -/
structure StatusCondition where
  type : String
deriving DecidableEq

/-- An entry of `node.status.addresses`. -/
structure NodeAddress where
  address : String
deriving DecidableEq

/-- Fields of a `V1Pod` read by `get_pods_info`. -/
structure PodItem where
  metadata_name : String
  metadata_namespace : String
  status_phase : Option String
  spec_node_name : Option String
deriving DecidableEq

/-- Fields of a `V1Deployment` read by `get_deployments_info`. The selector
is an optional object whose `match_labels` may itself be `None`; the strategy
is an optional object whose `type` may be `None`. -/
structure DeploymentItem where
  metadata_name : String
  spec_replicas : Option Int
  status_available_replicas : Option Int
  status_ready_replicas : Option Int
  status_conditions : Option (List StatusCondition)
  spec_selector : Option (Option (List (String × String)))
  spec_strategy : Option (Option String)
deriving DecidableEq

/-- Fields of a `V1Node` read by `get_nodes_info`. `spec_has_unschedulable`
models the `hasattr(node.spec, "unschedulable")` test (true on every client
object, kept explicit for fidelity). -/
structure NodeItem where
  metadata_name : String
  status_conditions : Option (List StatusCondition)
  metadata_labels : Option (List (String × String))
  status_addresses : Option (List NodeAddress)
  spec_has_unschedulable : Bool
  spec_unschedulable : Option Bool
deriving DecidableEq

/-- A possibly-`None` string value in a record. -/
def optStrVal : Option String → JVal
  | none => JVal.jnull
  | some s => JVal.jstr s

/-- A possibly-`None` int value in a record. -/
def optIntVal : Option Int → JVal
  | none => JVal.jnull
  | some n => JVal.jint n

/-- A possibly-`None` bool value in a record. -/
def optBoolVal : Option Bool → JVal
  | none => JVal.jnull
  | some b => JVal.jbool b

/-- A dict of string labels. -/
def fieldsOfPairs : List (String × String) → JFields
  | [] => JFields.nil
  | (k, v) :: rest => JFields.cons k (JVal.jstr v) (fieldsOfPairs rest)

/-- A possibly-`None` dict of string labels. -/
def labelsVal : Option (List (String × String)) → JVal
  | none => JVal.jnull
  | some kvs => JVal.jobj (fieldsOfPairs kvs)

/-- `conditions[-1].type if conditions else "Unknown"`: Python truthiness
makes both `None` and the empty list fall to `"Unknown"`. -/
def condStatus : Option (List StatusCondition) → String
  | none => "Unknown"
  | some [] => "Unknown"
  | some (c :: cs) => ((c :: cs).getLast (List.cons_ne_nil c cs)).type

/-- `deployment.spec.selector.match_labels if deployment.spec.selector else
an empty dict`. -/
def selectorVal : Option (Option (List (String × String))) → JVal
  | none => JVal.jobj JFields.nil
  | some ml => labelsVal ml

/-- `deployment.spec.strategy.type if deployment.spec.strategy else
"Unknown"`. -/
def strategyVal : Option (Option String) → JVal
  | none => JVal.jstr ("Unknown")
  | some t => optStrVal t

/-- `node.status.addresses[0].address if node.status.addresses else
"Unknown"`. -/
def firstAddress : Option (List NodeAddress) → String
  | none => "Unknown"
  | some [] => "Unknown"
  | some (a :: _) => a.address

/-- `node.spec.unschedulable if hasattr(node.spec, "unschedulable") else
False`. -/
def unschedulableVal (n : NodeItem) : JVal :=
  if n.spec_has_unschedulable then optBoolVal n.spec_unschedulable
  else JVal.jbool false

/-- The per-pod dict built inside `get_pods_info`. -/
def pod_info_of (p : PodItem) : JVal :=
  JVal.jobj (JFields.cons ("name") (JVal.jstr p.metadata_name)
    (JFields.cons ("namespace") (JVal.jstr p.metadata_namespace)
    (JFields.cons ("status") (optStrVal p.status_phase)
    (JFields.cons ("node") (optStrVal p.spec_node_name) JFields.nil))))

/-- The per-deployment dict built inside `get_deployments_info`. -/
def deployment_info_of (d : DeploymentItem) : JVal :=
  JVal.jobj (JFields.cons ("name") (JVal.jstr d.metadata_name)
    (JFields.cons ("replicas") (optIntVal d.spec_replicas)
    (JFields.cons ("available_replicas") (optIntVal d.status_available_replicas)
    (JFields.cons ("ready_replicas") (optIntVal d.status_ready_replicas)
    (JFields.cons ("status") (JVal.jstr (condStatus d.status_conditions))
    (JFields.cons ("selector") (selectorVal d.spec_selector)
    (JFields.cons ("strategy") (strategyVal d.spec_strategy) JFields.nil)))))))

/-- The per-node dict built inside `get_nodes_info`. -/
def node_info_of (n : NodeItem) : JVal :=
  JVal.jobj (JFields.cons ("name") (JVal.jstr n.metadata_name)
    (JFields.cons ("status") (JVal.jstr (condStatus n.status_conditions))
    (JFields.cons ("labels") (labelsVal n.metadata_labels)
    (JFields.cons ("node_ip") (JVal.jstr (firstAddress n.status_addresses))
    (JFields.cons ("unschedulable") (unschedulableVal n) JFields.nil)))))

/-! ### Collaborators, collectors, and the request handler -/

/-- The cluster API client. Each operation either returns its items or
raises, modelled by `Except` with the exception's textual description. -/
structure ClusterApi where
  list_namespaced_pod : String → Except String (List PodItem)
  list_namespaced_deployment : String → Except String (List DeploymentItem)
  list_node : Except String (List NodeItem)
  read_namespaced_pod_log : String → String → Except String String

/-- A chat message (`{"role": ..., "content": ...}`). -/
structure Msg where
  role : String
  content : String
deriving DecidableEq

/-- The collaborators injected into one request: the cluster API client and
the completion provider (`chat.completions.create` plus the extraction of
`choices[0].message.content`, which either yields text or raises). -/
structure Env where
  api : ClusterApi
  complete : List Msg → String → Except String String

/-- The request body (`class QueryRequest(BaseModel): query: str`). -/
structure QueryRequest where
  query : String
deriving DecidableEq

/-- The response body (`class QueryResponse(BaseModel)`). -/
structure QueryResponse where
  query : String
  answer : String
deriving DecidableEq

/-- `HTTPException(status_code=..., detail=...)`. -/
structure HTTPError where
  status_code : Nat
  detail : String
deriving DecidableEq

/-- One collaborator invocation, recorded by the instrumented handler. -/
inductive Call where
  | listPods : String → Call
  | listDeployments : String → Call
  | listNodes : Call
  | readPodLog : String → String → Call
  | chatCompletion : List Msg → String → Call
deriving DecidableEq

/-- `get_pods_info`: list the pods of a namespace, build one dict per pod,
return the dicts and their number; on any exception return `([], 0)`. -/
def get_pods_info (api : ClusterApi) (ns : String) : List JVal × Nat :=
  match api.list_namespaced_pod ns with
  | Except.ok pods =>
      let pod_info := pods.map pod_info_of
      (pod_info, pod_info.length)
  | Except.error _ => ([], 0)

/-- `get_deployments_info`: same shape for deployments. -/
def get_deployments_info (api : ClusterApi) (ns : String) : List JVal × Nat :=
  match api.list_namespaced_deployment ns with
  | Except.ok deployments =>
      let deployment_info := deployments.map deployment_info_of
      (deployment_info, deployment_info.length)
  | Except.error _ => ([], 0)

/-- `get_pod_logs`: read one pod's log; on any exception return the empty
string. -/
def get_pod_logs (api : ClusterApi) (pod_name : String) (ns : String) : String :=
  match api.read_namespaced_pod_log pod_name ns with
  | Except.ok logs => logs
  | Except.error _ => ""

/-- `get_nodes_info`: list all nodes; the count is taken from the item list
before the records are built; on any exception return `([], 0)`. -/
def get_nodes_info (api : ClusterApi) : List JVal × Nat :=
  match api.list_node with
  | Except.ok nodes =>
      let node_count := nodes.length
      (nodes.map node_info_of, node_count)
  | Except.error _ => ([], 0)

/-- The `context` dict of the general-question path, built from the three
collectors for the `"default"` namespace. -/
def general_context (api : ClusterApi) : JVal :=
  let pd := get_pods_info api ("default")
  let dd := get_deployments_info api ("default")
  let nd := get_nodes_info api
  JVal.jobj (JFields.cons ("pods") (JVal.jarr (jitemsOf pd.1))
    (JFields.cons ("deployments") (JVal.jarr (jitemsOf dd.1))
    (JFields.cons ("nodes") (JVal.jarr (jitemsOf nd.1))
    (JFields.cons ("pod_count") (JVal.jint (Int.ofNat pd.2))
    (JFields.cons ("deployment_count") (JVal.jint (Int.ofNat dd.2))
    (JFields.cons ("node_count") (JVal.jint (Int.ofNat nd.2)) JFields.nil))))))

/-- The fixed system instruction of the general-question path. -/
def system_content : String :=
  ("You are a Kubernetes assistant. ") ++
  ("Answer in clear, natural sentences. ") ++
  ("Base all responses ONLY on the provided JSON cluster data. ") ++
  ("If the user asks for counts, state them in a sentence ") ++
  ("(e.g., \x27There are 5 pods running in the default namespace.\x27). ") ++
  ("If they ask for names, list them naturally in one sentence. ") ++
  ("If they ask about deployments or nodes, summarize them clearly.")

/-- The `openai_message` list: the fixed system instruction and the user
message embedding the serialized context followed by the query. -/
def openai_message (context : JVal) (query : String) : List Msg :=
  [⟨("system"), system_content⟩,
   ⟨("user"), ("Cluster data:\n") ++ json_dumps context ++ ("\n\nQuestion: ") ++ query⟩]

/-- The `POST /query` handler `query_kubernetes`, instrumented with the list
of collaborator invocations it performs. -/
def query_kubernetes (env : Env) (request : QueryRequest) :
    Except HTTPError QueryResponse × List Call :=
  if containsLog request.query then
    match searchLog request.query.data with
    | some m =>
        let pod_name := String.mk (pyStrip m)
        (Except.ok ⟨request.query, get_pod_logs env.api pod_name ("default")⟩,
         [Call.readPodLog pod_name ("default")])
    | none =>
        (Except.ok ⟨request.query, ("Pod name not found in the query.")⟩, [])
  else
    let context := general_context env.api
    let msgs := openai_message context request.query
    let tr := [Call.listPods ("default"), Call.listDeployments ("default"),
               Call.listNodes, Call.chatCompletion msgs ("gpt-4o")]
    match env.complete msgs ("gpt-4o") with
    | Except.ok enhanced_answer =>
        (Except.ok ⟨request.query, enhanced_answer⟩, tr)
    | Except.error e => (Except.error ⟨500, e⟩, tr)

/-- Pydantic validation of the request body: `query: str` places no
constraint on the string, so every string is accepted. -/
def queryRequestValidate (q : String) : Option QueryRequest :=
  some ⟨q⟩

/-- Substring containment of character lists, used to state what the user
message embeds. -/
def ContainsL (s pat : List Char) : Prop :=
  ∃ x y, s = x ++ pat ++ y

/-! ### Concrete collaborator stubs used by the witnesses -/

/-- A stub pod item. -/
def podItemA : PodItem :=
  ⟨("nginx-1"), ("default"), some ("Running"), some ("node-a")⟩

/-- A second stub pod item. -/
def podItemB : PodItem :=
  ⟨("nginx-2"), ("default"), some ("Pending"), none⟩

/-- A third stub pod item. -/
def podItemC : PodItem :=
  ⟨("web-7f8c"), ("default"), some ("Running"), some ("node-b")⟩

/-- A stub deployment item whose last condition type is `"Available"`. -/
def depItemA : DeploymentItem :=
  ⟨("web"), some 3, none, some 2, some [⟨("Progressing")⟩, ⟨("Available")⟩],
   some (some [(("app"), ("web"))]), some (some ("RollingUpdate"))⟩

/-- A stub node item whose last condition type is `"Ready"`. -/
def nodeItemA : NodeItem :=
  ⟨("node-a"), some [⟨("Ready")⟩], none, some [⟨("10.0.0.1")⟩], true, some false⟩

/-- A second stub node item, with neither conditions nor addresses. -/
def nodeItemB : NodeItem :=
  ⟨("node-b"), none, some [(("zone"), ("a"))], none, true, none⟩

/-- A cluster API stub: three pods, one deployment, two nodes; the log of pod
`web-7f8c` is `"line1\nline2"`, other pods have a log derived from their
name. -/
def stubApi : ClusterApi :=
  ⟨fun _ => Except.ok [podItemA, podItemB, podItemC],
   fun _ => Except.ok [depItemA],
   Except.ok [nodeItemA, nodeItemB],
   fun pod _ =>
     if pod = ("web-7f8c") then Except.ok ("line1\nline2")
     else Except.ok (("logs-of-") ++ pod)⟩

/-- A deterministic completion-provider stub. -/
def stubEnv : Env :=
  ⟨stubApi, fun _ _ => Except.ok ("stub-answer")⟩

/-- The same cluster stub with a failing completion provider. -/
def stubEnvFail : Env :=
  ⟨stubApi, fun _ _ => Except.error ("provider down")⟩

/-- A cluster API stub whose deployment listing raises while pods and nodes
succeed. -/
def stubApiDepFail : ClusterApi :=
  ⟨fun _ => Except.ok [podItemA], fun _ => Except.error ("boom"),
   Except.ok [nodeItemA], fun _ _ => Except.ok ("")⟩

/-- A cluster API stub all of whose calls raise. -/
def stubApiAllFail : ClusterApi :=
  ⟨fun _ => Except.error ("down"), fun _ => Except.error ("down"),
   Except.error ("down"), fun _ _ => Except.error ("down")⟩

/-- The all-failing cluster stub with a deterministic provider. -/
def stubEnvSmall : Env :=
  ⟨stubApiAllFail, fun _ _ => Except.ok ("stub-answer")⟩

set_option maxRecDepth 40000 in
example :
    json_dumps (general_context
      ⟨fun _ => Except.ok [⟨("nginx-1"), ("default"), some ("Running"), some ("node-a")⟩],
       fun _ => Except.ok [⟨("web"), some 3, none, some 2,
                           some [⟨("Progressing")⟩, ⟨("Available")⟩],
                           some (some [(("app"), ("web"))]), some (some ("RollingUpdate"))⟩],
       Except.ok [⟨("node-a"), some [⟨("Ready")⟩], none, some [⟨("10.0.0.1")⟩], true, some false⟩],
       fun _ _ => Except.ok ("")⟩) =
    ("\x7b\n  \"pods\": [\n    \x7b\n      \"name\": \"nginx-1\",\n      \"namespace\": \"default\",\n      \"status\": \"Running\",\n      \"node\": \"node-a\"\n    \x7d\n  ],\n  \"deployments\": [\n    \x7b\n      \"name\": \"web\",\n      \"replicas\": 3,\n      \"available_replicas\": null,\n      \"ready_replicas\": 2,\n      \"status\": \"Available\",\n      \"selector\": \x7b\n        \"app\": \"web\"\n      \x7d,\n      \"strategy\": \"RollingUpdate\"\n    \x7d\n  ],\n  \"nodes\": [\n    \x7b\n      \"name\": \"node-a\",\n      \"status\": \"Ready\",\n      \"labels\": null,\n      \"node_ip\": \"10.0.0.1\",\n      \"unschedulable\": false\n    \x7d\n  ],\n  \"pod_count\": 1,\n  \"deployment_count\": 1,\n  \"node_count\": 1\n\x7d") := by
  decide

example : searchLog (("log for the pod web-7f8c in the default namespace").data)
    = some (("web-7f8c").data) := by decide
example : searchLog (("log the nginx pod").data) = some (("the").data) := by decide
example : searchLog (("catalog nginx").data) = some (("nginx").data) := by decide
example : searchLog (("logs nginx").data) = none := by decide
example : searchLog (("logs").data) = none := by decide
example : searchLog (("log for ").data) = some (("for").data) := by decide
example : searchLog (("log  FOR THE POD x").data) = some (( "x").data) := by decide
example : searchLog (("log forthe").data) = some (("forthe").data) := by decide
example : searchLog (("loglog x").data) = some (( "x").data) := by decide
example : searchLog (("log the pod ").data) = some (("the").data) := by decide
example : searchLog (("log THE  pod   ab-1").data) = some (("ab-1").data) := by decide
example : searchLog (("my catalog log for the pod a").data) = some (("log").data) := by decide
example : searchLog (("log\tnginx").data) = some (("nginx").data) := by decide
example : searchLog (("log for").data) = some (("for").data) := by decide
example : containsLog ("catalog nginx") = true := by decide
example : containsLog ("how many pods are running?") = false := by decide
example : containsLog ("show me the LOGs") = true := by decide

/-! ### Helper lemmas -/

theorem tokChar_not_space (c : Char) (h : isTokChar c = true) : isPySpace c = false := by
  simp only [isTokChar, decide_eq_true_eq] at h
  simp only [isPySpace, decide_eq_false_iff_not]
  omega

theorem takeTok_all (l : List Char) : ((takeTok l).1).all isTokChar = true := by
  induction l with
  | nil => rfl
  | cons c cs ih =>
      cases h : isTokChar c with
      | true => simp [takeTok, h, ih]
      | false => simp [takeTok, h]

theorem tokenOf_all (l t : List Char) (h : tokenOf l = some t) :
    t.all isTokChar = true := by
  have hall := takeTok_all l
  unfold tokenOf at h
  cases hp : takeTok l with
  | mk t1 r =>
      rw [hp] at h hall
      cases t1 with
      | nil => simp at h
      | cons c t2 =>
          simp only [Option.some.injEq] at h
          rw [← h]
          exact hall

theorem afterThe_all (l t : List Char) (h : afterThe l = some t) :
    t.all isTokChar = true := by
  unfold afterThe at h
  split at h
  · split at h
    · cases h
      exact tokenOf_all _ _ (by assumption)
    · exact tokenOf_all _ _ h
  · exact tokenOf_all _ _ h

theorem matchTail_all (l t : List Char) (h : matchTail l = some t) :
    t.all isTokChar = true := by
  unfold matchTail at h
  split at h
  · simp at h
  · split at h
    · split at h
      · cases h
        exact afterThe_all _ _ (by assumption)
      · exact afterThe_all _ _ h
    · exact afterThe_all _ _ h

theorem searchLog_all (l t : List Char) (h : searchLog l = some t) :
    t.all isTokChar = true := by
  induction l with
  | nil => simp [searchLog] at h
  | cons c cs ih =>
      unfold searchLog at h
      split at h
      · split at h
        · cases h
          exact matchTail_all _ _ (by assumption)
        · exact ih h
      · exact ih h

theorem dropWhile_eq_self (p : Char → Bool) (l : List Char)
    (h : ∀ c ∈ l, p c = false) : l.dropWhile p = l := by
  cases l with
  | nil => rfl
  | cons c cs => simp [List.dropWhile_cons, h c (by simp)]

theorem pyStrip_eq_of_tok (l : List Char) (h : l.all isTokChar = true) :
    pyStrip l = l := by
  have hns : ∀ c ∈ l, isPySpace c = false := by
    intro c hc
    exact tokChar_not_space c (List.all_eq_true.mp h c hc)
  unfold pyStrip
  rw [dropWhile_eq_self _ _ hns,
      dropWhile_eq_self _ _ (fun c hc => hns c (List.mem_reverse.mp hc)),
      List.reverse_reverse]

theorem intRepr_ofNat (n : Nat) : intRepr (Int.ofNat n) = Nat.repr n := by
  have h1 : Int.ofNat n = (n : Int) := rfl
  unfold intRepr
  rw [h1, if_neg (by omega), Int.toNat_ofNat]

theorem containsL_append_left (a : List Char) {s pat : List Char}
    (h : ContainsL s pat) : ContainsL (a ++ s) pat := by
  obtain ⟨x, y, rfl⟩ := h
  exact ⟨a ++ x, y, by simp⟩

theorem containsL_append_right (b : List Char) {s pat : List Char}
    (h : ContainsL s pat) : ContainsL (s ++ b) pat := by
  obtain ⟨x, y, rfl⟩ := h
  exact ⟨x, y ++ b, by simp⟩

/-! ### Claims -/

/-- C1: for every query containing the substring "log" (case-insensitively)
in which the extraction pattern finds a pod-name token, the handler echoes
the query verbatim, answers with exactly the text returned by the single-pod
log fetch for that token in the "default" namespace, and performs only that
log-fetch call — in particular the completion provider is never invoked. -/
theorem c1_log_path (env : Env) (q : String) (tok : List Char)
    (hlog : containsLog q = true) (hm : searchLog q.data = some tok) :
    query_kubernetes env ⟨q⟩ =
      (Except.ok ⟨q, get_pod_logs env.api (String.mk tok) ("default")⟩,
       [Call.readPodLog (String.mk tok) ("default")]) := by
  have hstrip : pyStrip tok = tok := pyStrip_eq_of_tok tok (searchLog_all _ _ hm)
  simp [query_kubernetes, hlog, hm, hstrip]

/-- Witness for C1 at the spec's end-to-end example query. -/
theorem c1_witness :
    query_kubernetes stubEnv ⟨("log for the pod web-7f8c in the default namespace")⟩ =
      (Except.ok ⟨("log for the pod web-7f8c in the default namespace"), ("line1\nline2")⟩,
       [Call.readPodLog ("web-7f8c") ("default")]) := by
  have h := c1_log_path stubEnv ("log for the pod web-7f8c in the default namespace")
      (("web-7f8c").data) (by decide) (by decide)
  rw [h]
  rfl

/-- C3: for every query containing "log" (case-insensitively) in which the
extraction pattern finds no match, the handler answers exactly
"Pod name not found in the query." and performs no collaborator call at
all (no cluster API call, no completion call). -/
theorem c3_not_found (env : Env) (q : String)
    (hlog : containsLog q = true) (hm : searchLog q.data = none) :
    query_kubernetes env ⟨q⟩ =
      (Except.ok ⟨q, ("Pod name not found in the query.")⟩, []) := by
  simp [query_kubernetes, hlog, hm]

/-- Witness for C3: "logs" contains "log" but the pattern needs whitespace
after the literal, so extraction fails. -/
theorem c3_witness :
    query_kubernetes stubEnv ⟨("logs")⟩ =
      (Except.ok ⟨("logs"), ("Pod name not found in the query.")⟩, []) :=
  c3_not_found stubEnv ("logs") (by decide) (by decide)

/-- C4: every collector returns a count equal to the length of the record
list it returns, in both the success and the failure case. -/
theorem c4_count_invariant (api : ClusterApi) (ns : String) :
    (get_pods_info api ns).2 = (get_pods_info api ns).1.length ∧
    (get_deployments_info api ns).2 = (get_deployments_info api ns).1.length ∧
    (get_nodes_info api).2 = (get_nodes_info api).1.length := by
  refine ⟨?_, ?_, ?_⟩
  · unfold get_pods_info
    cases api.list_namespaced_pod ns <;> simp
  · unfold get_deployments_info
    cases api.list_namespaced_deployment ns <;> simp
  · unfold get_nodes_info
    cases api.list_node <;> simp

/-- C5: if the deployment listing raises, `get_deployments_info` degrades to
`([], 0)` and the context of the general path still carries the pods and
nodes produced by their own successful collaborators. -/
theorem c5_deployment_degradation (api : ClusterApi) (e : String)
    (hd : api.list_namespaced_deployment ("default") = Except.error e)
    (pitems : List PodItem)
    (hp : api.list_namespaced_pod ("default") = Except.ok pitems)
    (nitems : List NodeItem) (hn : api.list_node = Except.ok nitems) :
    get_deployments_info api ("default") = ([], 0) ∧
    general_context api =
      JVal.jobj (JFields.cons ("pods") (JVal.jarr (jitemsOf (pitems.map pod_info_of)))
        (JFields.cons ("deployments") (JVal.jarr JItems.nil)
        (JFields.cons ("nodes") (JVal.jarr (jitemsOf (nitems.map node_info_of)))
        (JFields.cons ("pod_count") (JVal.jint (Int.ofNat pitems.length))
        (JFields.cons ("deployment_count") (JVal.jint (Int.ofNat 0))
        (JFields.cons ("node_count") (JVal.jint (Int.ofNat nitems.length))
          JFields.nil)))))) := by
  constructor
  · simp [get_deployments_info, hd]
  · simp [general_context, get_pods_info, get_deployments_info, get_nodes_info,
          hd, hp, hn, jitemsOf]

/-- Witness for C5 at a concrete API whose deployment listing raises. -/
theorem c5_witness :
    get_deployments_info stubApiDepFail ("default") = ([], 0) ∧
    general_context stubApiDepFail =
      JVal.jobj (JFields.cons ("pods") (JVal.jarr (jitemsOf ([podItemA].map pod_info_of)))
        (JFields.cons ("deployments") (JVal.jarr JItems.nil)
        (JFields.cons ("nodes") (JVal.jarr (jitemsOf ([nodeItemA].map node_info_of)))
        (JFields.cons ("pod_count") (JVal.jint (Int.ofNat [podItemA].length))
        (JFields.cons ("deployment_count") (JVal.jint (Int.ofNat 0))
        (JFields.cons ("node_count") (JVal.jint (Int.ofNat [nodeItemA].length))
          JFields.nil)))))) :=
  c5_deployment_degradation stubApiDepFail ("boom") rfl [podItemA] rfl [nodeItemA] rfl

/-- C6: every deployment record and node record produced by the collectors
carries a "status" field equal to the type of the last element of the item's
condition list when that list is non-empty, and "Unknown" when the list is
empty or absent. -/
theorem c6_status_from_last_condition (api : ClusterApi) (ns : String)
    (ditems : List DeploymentItem)
    (hd : api.list_namespaced_deployment ns = Except.ok ditems)
    (d : DeploymentItem) (hdm : d ∈ ditems)
    (nitems : List NodeItem) (hn : api.list_node = Except.ok nitems)
    (n : NodeItem) (hnm : n ∈ nitems) :
    (deployment_info_of d ∈ (get_deployments_info api ns).1 ∧
     (∀ (l : List StatusCondition) (hne : l ≠ []), d.status_conditions = some l →
        jobjGet ("status") (deployment_info_of d) =
          some (JVal.jstr ((l.getLast hne).type))) ∧
     ((d.status_conditions = none ∨ d.status_conditions = some []) →
        jobjGet ("status") (deployment_info_of d) = some (JVal.jstr ("Unknown")))) ∧
    (node_info_of n ∈ (get_nodes_info api).1 ∧
     (∀ (l : List StatusCondition) (hne : l ≠ []), n.status_conditions = some l →
        jobjGet ("status") (node_info_of n) =
          some (JVal.jstr ((l.getLast hne).type))) ∧
     ((n.status_conditions = none ∨ n.status_conditions = some []) →
        jobjGet ("status") (node_info_of n) = some (JVal.jstr ("Unknown")))) := by
  have hdred : jobjGet ("status") (deployment_info_of d) =
      some (JVal.jstr (condStatus d.status_conditions)) := rfl
  have hnred : jobjGet ("status") (node_info_of n) =
      some (JVal.jstr (condStatus n.status_conditions)) := rfl
  refine ⟨⟨?_, ?_, ?_⟩, ?_, ?_, ?_⟩
  · simp only [get_deployments_info, hd]
    exact List.mem_map_of_mem _ hdm
  · intro l hne hsc
    rw [hdred, hsc]
    cases l with
    | nil => exact absurd rfl hne
    | cons c cs => rfl
  · intro hsc
    rcases hsc with h0 | h0 <;> rw [hdred, h0] <;> rfl
  · simp only [get_nodes_info, hn]
    exact List.mem_map_of_mem _ hnm
  · intro l hne hsc
    rw [hnred, hsc]
    cases l with
    | nil => exact absurd rfl hne
    | cons c cs => rfl
  · intro hsc
    rcases hsc with h0 | h0 <;> rw [hnred, h0] <;> rfl

/-- Witness for C6: the stub deployment's conditions end in "Available", the
stub node's in "Ready". -/
theorem c6_witness :
    jobjGet ("status") (deployment_info_of depItemA) =
      some (JVal.jstr ("Available")) ∧
    jobjGet ("status") (node_info_of nodeItemA) = some (JVal.jstr ("Ready")) := by
  obtain ⟨⟨_, hdlast, _⟩, ⟨_, hnlast, _⟩⟩ :=
    c6_status_from_last_condition stubApi ("default") [depItemA] rfl depItemA
      (by simp) [nodeItemA, nodeItemB] rfl nodeItemA (by simp)
  refine ⟨?_, ?_⟩
  · simpa using hdlast [⟨("Progressing")⟩, ⟨("Available")⟩] (by simp) rfl
  · simpa using hnlast [⟨("Ready")⟩] (by simp) rfl

/-- C7: an exception raised on the general-question path (here: by the
completion provider) is propagated as an HTTP 500 failure whose detail is
the exception's textual description, and no QueryResponse is produced. -/
theorem c7_error_propagation (env : Env) (q : String) (e : String)
    (hq : containsLog q = false)
    (herr : env.complete (openai_message (general_context env.api) q) ("gpt-4o") =
      Except.error e) :
    (query_kubernetes env ⟨q⟩).1 = Except.error ⟨500, e⟩ ∧
    ∀ r : QueryResponse, (query_kubernetes env ⟨q⟩).1 ≠ Except.ok r := by
  have hmain : (query_kubernetes env ⟨q⟩).1 = Except.error ⟨500, e⟩ := by
    simp [query_kubernetes, hq, herr]
  refine ⟨hmain, fun r hr => ?_⟩
  rw [hmain] at hr
  cases hr

/-- Witness for C7 at a failing provider stub. -/
theorem c7_witness :
    (query_kubernetes stubEnvFail ⟨("how many pods are running?")⟩).1 =
      Except.error ⟨500, ("provider down")⟩ :=
  (c7_error_propagation stubEnvFail ("how many pods are running?")
    ("provider down") (by decide) rfl).1

/-- C8: the handler is deterministic — two runs on the same request against
the same collaborators yield the same response. -/
theorem c8_deterministic (env : Env) (req : QueryRequest)
    (r1 r2 : Except HTTPError QueryResponse × List Call)
    (h1 : r1 = query_kubernetes env req) (h2 : r2 = query_kubernetes env req) :
    r1 = r2 :=
  h1.trans h2.symm

/-- Witness for C8 at a concrete request and stub environment. -/
theorem c8_witness :
    query_kubernetes stubEnv ⟨("how many pods are running?")⟩ =
      query_kubernetes stubEnv ⟨("how many pods are running?")⟩ :=
  c8_deterministic stubEnv ⟨("how many pods are running?")⟩ _ _ rfl rfl

/-- C9 counterexample: the request model places no constraint on the query
string — the empty query is accepted by validation and fully processed by
the handler, which emits a QueryResponse for it instead of rejecting it. -/
theorem c9_counterexample :
    queryRequestValidate ("") = some ⟨("")⟩ ∧
    (query_kubernetes stubEnvSmall ⟨("")⟩).1 =
      Except.ok ⟨(""), ("stub-answer")⟩ := by
  exact ⟨rfl, rfl⟩

/-- C9 (amended): every string — the empty string included — is accepted as
a QueryRequest, and an empty query is processed through the general-question
path, invoking the three collectors and the completion provider. -/
theorem c9_amended (env : Env) :
    queryRequestValidate ("") = some ⟨("")⟩ ∧
    (query_kubernetes env ⟨("")⟩).2 =
      [Call.listPods ("default"), Call.listDeployments ("default"),
       Call.listNodes,
       Call.chatCompletion (openai_message (general_context env.api) ("")) ("gpt-4o")] := by
  refine ⟨rfl, ?_⟩
  have h : containsLog ("") = false := by decide
  rcases he : env.complete (openai_message (general_context env.api) ("")) ("gpt-4o")
    with t | e <;> simp [query_kubernetes, h, he]

/-- C10: classification fires on "log" embedded anywhere, and extraction
takes the first token after "log" even when it is not a pod name: "log the
nginx pod" fetches the log of a pod named "the", and "catalog nginx" takes
the log path and fetches the log of pod "nginx". -/
theorem c10_extraction_quirks :
    query_kubernetes stubEnv ⟨("log the nginx pod")⟩ =
      (Except.ok ⟨("log the nginx pod"), ("logs-of-the")⟩,
       [Call.readPodLog ("the") ("default")]) ∧
    query_kubernetes stubEnv ⟨("catalog nginx")⟩ =
      (Except.ok ⟨("catalog nginx"), ("logs-of-nginx")⟩,
       [Call.readPodLog ("nginx") ("default")]) := by
  exact ⟨rfl, rfl⟩

/-! ### Decomposition of the serialized context, for C2 -/

theorem data_empty : ("").data = [] := rfl

theorem containsL_head (pat y : List Char) : ContainsL (pat ++ y) pat :=
  ⟨[], y, by simp⟩

theorem quote_pod_count :
    (jsonQuote ("pod_count")).data = ("\"pod_count\"").data := by
  decide

theorem quote_deployment_count :
    (jsonQuote ("deployment_count")).data = ("\"deployment_count\"").data := by
  decide

theorem quote_node_count :
    (jsonQuote ("node_count")).data = ("\"node_count\"").data := by
  decide

theorem dump_context_counts (api : ClusterApi) :
    ContainsL ((json_dumps (general_context api)).data)
      ((("\"pod_count\": ") ++ Nat.repr (get_pods_info api ("default")).2).data) ∧
    ContainsL ((json_dumps (general_context api)).data)
      ((("\"deployment_count\": ") ++
        Nat.repr (get_deployments_info api ("default")).2).data) ∧
    ContainsL ((json_dumps (general_context api)).data)
      ((("\"node_count\": ") ++ Nat.repr (get_nodes_info api).2).data) := by
  have hsplit : (json_dumps (general_context api)).data =
      ("\x7b\n").data ++ (jIndent 1).data ++ (jsonQuote ("pods")).data ++ (": ").data ++
      (dumpVal 1 (JVal.jarr (jitemsOf (get_pods_info api ("default")).1))).data ++
      (",\n").data ++ (jIndent 1).data ++ (jsonQuote ("deployments")).data ++ (": ").data ++
      (dumpVal 1 (JVal.jarr (jitemsOf (get_deployments_info api ("default")).1))).data ++
      (",\n").data ++ (jIndent 1).data ++ (jsonQuote ("nodes")).data ++ (": ").data ++
      (dumpVal 1 (JVal.jarr (jitemsOf (get_nodes_info api).1))).data ++
      (",\n").data ++ (jIndent 1).data ++
      ((("\"pod_count\": ") ++ Nat.repr (get_pods_info api ("default")).2).data) ++
      (",\n").data ++ (jIndent 1).data ++
      ((("\"deployment_count\": ") ++
        Nat.repr (get_deployments_info api ("default")).2).data) ++
      (",\n").data ++ (jIndent 1).data ++
      ((("\"node_count\": ") ++ Nat.repr (get_nodes_info api).2).data) ++
      ("\n").data ++ (jIndent 0).data ++ ("\x7d").data := by
    simp only [json_dumps, general_context, dumpVal, dumpFieldsRest,
               String.data_append, List.append_assoc, List.append_nil,
               List.cons_append, List.nil_append, data_empty,
               quote_pod_count, quote_deployment_count, quote_node_count,
               intRepr_ofNat, Nat.zero_add]
  refine ⟨?_, ?_, ?_⟩
  · rw [hsplit]
    simp only [List.append_assoc]
    iterate 17 apply containsL_append_left
    exact containsL_head _ _
  · rw [hsplit]
    simp only [List.append_assoc]
    iterate 20 apply containsL_append_left
    exact containsL_head _ _
  · rw [hsplit]
    simp only [List.append_assoc]
    iterate 23 apply containsL_append_left
    exact containsL_head _ _

/-- C2: for every query not containing "log" (case-insensitively), the
completion provider is invoked exactly once (the trace holds exactly one
completion call), with a two-message input whose user message contains the
literal query text and the serialization of the snapshot's three counts;
and whatever text the provider returns is passed through unchanged as the
answer. -/
theorem c2_general_path (env : Env) (q : String) (hq : containsLog q = false) :
    ∃ userc : String,
      (query_kubernetes env ⟨q⟩).2 =
        [Call.listPods ("default"), Call.listDeployments ("default"),
         Call.listNodes,
         Call.chatCompletion
           [⟨("system"), system_content⟩, ⟨("user"), userc⟩] ("gpt-4o")] ∧
      ContainsL userc.data q.data ∧
      ContainsL userc.data
        ((("\"pod_count\": ") ++ Nat.repr (get_pods_info env.api ("default")).2).data) ∧
      ContainsL userc.data
        ((("\"deployment_count\": ") ++
          Nat.repr (get_deployments_info env.api ("default")).2).data) ∧
      ContainsL userc.data
        ((("\"node_count\": ") ++ Nat.repr (get_nodes_info env.api).2).data) ∧
      (∀ t, env.complete [⟨("system"), system_content⟩, ⟨("user"), userc⟩] ("gpt-4o") =
          Except.ok t →
        (query_kubernetes env ⟨q⟩).1 = Except.ok ⟨q, t⟩) := by
  obtain ⟨h1, h2, h3⟩ := dump_context_counts env.api
  have hu : (("Cluster data:\n") ++ json_dumps (general_context env.api) ++
      ("\n\nQuestion: ") ++ q).data =
      ("Cluster data:\n").data ++ ((json_dumps (general_context env.api)).data ++
        (("\n\nQuestion: ").data ++ q.data)) := by
    simp [String.data_append]
  refine ⟨("Cluster data:\n") ++ json_dumps (general_context env.api) ++
    ("\n\nQuestion: ") ++ q, ?_, ?_, ?_, ?_, ?_, ?_⟩
  · rcases he : env.complete (openai_message (general_context env.api) q) ("gpt-4o")
      with t | e <;>
      simp only [openai_message] at he <;>
      simp [query_kubernetes, hq, he, openai_message]
  · rw [hu]
    exact ⟨("Cluster data:\n").data ++ ((json_dumps (general_context env.api)).data ++
      ("\n\nQuestion: ").data), [], by simp⟩
  · rw [hu]
    exact containsL_append_left _
      (containsL_append_right (("\n\nQuestion: ").data ++ q.data) h1)
  · rw [hu]
    exact containsL_append_left _
      (containsL_append_right (("\n\nQuestion: ").data ++ q.data) h2)
  · rw [hu]
    exact containsL_append_left _
      (containsL_append_right (("\n\nQuestion: ").data ++ q.data) h3)
  · intro t ht
    simp [query_kubernetes, hq, openai_message] at ht ⊢
    simp [ht]

/-- Witness for C2 at the spec's end-to-end general-question example. -/
theorem c2_witness :
    ∃ userc : String,
      (query_kubernetes stubEnv ⟨("how many pods are running?")⟩).2 =
        [Call.listPods ("default"), Call.listDeployments ("default"),
         Call.listNodes,
         Call.chatCompletion
           [⟨("system"), system_content⟩, ⟨("user"), userc⟩] ("gpt-4o")] ∧
      ContainsL userc.data (("how many pods are running?").data) ∧
      ContainsL userc.data
        ((("\"pod_count\": ") ++ Nat.repr (get_pods_info stubEnv.api ("default")).2).data) ∧
      ContainsL userc.data
        ((("\"deployment_count\": ") ++
          Nat.repr (get_deployments_info stubEnv.api ("default")).2).data) ∧
      ContainsL userc.data
        ((("\"node_count\": ") ++ Nat.repr (get_nodes_info stubEnv.api).2).data) ∧
      (∀ t, stubEnv.complete [⟨("system"), system_content⟩, ⟨("user"), userc⟩] ("gpt-4o") =
          Except.ok t →
        (query_kubernetes stubEnv ⟨("how many pods are running?")⟩).1 =
          Except.ok ⟨("how many pods are running?"), t⟩) :=
  c2_general_path stubEnv ("how many pods are running?") (by decide)
